import Mathlib

/-!
Shallow embedding of `src/parser_input.py` (PyHIST argument-parsing shell).

The source file builds an `argparse.ArgumentParser` with one positional
argument (`svs`) and seventeen optional arguments.  We embed the behaviour of
`build_parser().parse_args(argv)` for this concrete option set as a total Lean
function `parse_args : List String → Except ParseError Config`.

Modelling notes:
* Python numeric literals supplied on the command line are converted with
  `int(...)` / `float(...)`; we embed the plain decimal fragment of those
  conversions (`pyInt`, `pyFloat`).  Float values are represented exactly as
  rationals; every literal the development touches is exactly representable.
* argparse treats a token as an option iff it starts with `-`, is longer than
  one character, and does not look like a negative number (the parser declares
  no option strings that look like negative numbers).  This is `tokenIsOption`.
* The embedding covers the space-separated long-option form (`--opt value`),
  which is the form the source's own usage examples and defaults exercise;
  `--opt=value` spellings, prefix abbreviation and the bare `--` separator are
  outside the modelled input space.
* `choices` for `--borders` / `--corners` is computed exactly as the source
  does: deduplicating the length-4 permutations of the multiset
  `['0','0','0','0','1','1','1','1']` and joining each into a string.  Python's
  `set` iteration order is unspecified; we keep first occurrences, and reason
  only about membership, which is all `choices` checking uses.
-/

/-- Value of a list of decimal digit characters. -/
def natOfDigits (l : List Char) : Nat :=
  l.foldl (fun a c => a * 10 + (c.toNat - 48)) 0

/-- `true` iff the list is a non-empty run of decimal digits. -/
def isDigits (l : List Char) : Bool :=
  !l.isEmpty && l.all Char.isDigit

/-- Python `int(s)` on a plain decimal token: optional sign then digits. -/
def pyInt (s : String) : Option Int :=
  match s.data with
  | [] => none
  | '-' :: rest => if isDigits rest then some (-(natOfDigits rest : Int)) else none
  | '+' :: rest => if isDigits rest then some (natOfDigits rest : Int) else none
  | l => if isDigits l then some (natOfDigits l : Int) else none

/-- Unsigned decimal float body: `digits`, `digits.digits`, `digits.` or
`.digits`.  The value is built with `mkRat`, which represents the decimal
exactly (Python's binary64 rounding never matters for the literals this
development touches). -/
def pyFloatCore (l : List Char) : Option Rat :=
  let intPart := l.takeWhile Char.isDigit
  let rest := l.drop intPart.length
  match rest with
  | [] => if intPart.isEmpty then none else some (mkRat (natOfDigits intPart) 1)
  | '.' :: frac =>
    if frac.all Char.isDigit && !(intPart.isEmpty && frac.isEmpty) then
      some (mkRat (natOfDigits intPart * 10 ^ frac.length + natOfDigits frac)
        (10 ^ frac.length))
    else none
  | _ => none

/-- Python `float(s)` on a plain decimal token, as an exact rational. -/
def pyFloat (s : String) : Option Rat :=
  match s.data with
  | [] => none
  | '-' :: rest => (pyFloatCore rest).map (fun q => -q)
  | '+' :: rest => pyFloatCore rest
  | l => pyFloatCore l

/-- argparse's negative-number shape: `-\d+` or `-\d*\.\d+`. -/
def isNegNumber (s : String) : Bool :=
  match s.data with
  | '-' :: rest =>
    isDigits rest ||
      (let intPart := rest.takeWhile (fun c => c ≠ '.')
       match rest.drop intPart.length with
       | '.' :: frac => intPart.all Char.isDigit && isDigits frac
       | _ => false)
  | _ => false

/-- A token is treated as an option string: starts with `-`, has at least two
characters, and does not look like a negative number (this parser declares no
negative-number-like option strings). -/
def tokenIsOption (s : String) : Bool :=
  match s.data with
  | c :: _ :: _ => c = '-' && !isNegNumber s
  | _ => false

/-- `itertools.permutations(pool, r)`: ordered selections of `r` distinct
positions from `pool`. -/
def permutationsPick : Nat → List Char → List (List Char)
  | 0, _ => [[]]
  | n + 1, l =>
    (List.range l.length).flatMap fun i =>
      (permutationsPick n (l.eraseIdx i)).map fun t => l.getD i ' ' :: t

/-- Deduplication, keeping first occurrences: the effect of Python's
`list(set(...))` up to ordering (Python's set iteration order is
unspecified; only membership in the result is ever used, by `choices`). -/
def dedupAcc (seen : List (List Char)) : List (List Char) → List (List Char)
  | [] => []
  | a :: t => if a ∈ seen then dedupAcc seen t else a :: dedupAcc (a :: seen) t

/-- `list(set(it.permutations(['0','0','0','0','1','1','1','1'], 4)))`,
each tuple joined into a string: the `choices` list for `--borders` and
`--corners`. -/
def combs : List String :=
  (dedupAcc [] (permutationsPick 4 ['0', '0', '0', '0', '1', '1', '1', '1'])).map
    fun p => String.mk p

/-- The parsed configuration: one field per argparse destination, with the
source's `dest` names (`lines` for `--number-of-lines`, `thres` for
`--content-threshold`). -/
structure Config where
  svs : String
  patch_size : Int
  verbose : Bool
  test_mode : Bool
  output : String
  save_tilecrossed_image : Bool
  save_edges : Bool
  save_mask : Bool
  save_patches : Bool
  output_downsample : Int
  downsample_mask : Int
  borders : String
  corners : String
  k_const : Int
  minimum_segmentsize : Int
  lines : Int
  sigma : Rat
  thres : Rat
deriving DecidableEq, Repr

/-- The namespace populated with every argparse default, before any token is
processed (`svs` has no default; it is filled from the positional). -/
def initConfig : Config :=
  { svs := ""
    patch_size := 512
    verbose := false
    test_mode := false
    output := "output/"
    save_tilecrossed_image := false
    save_edges := false
    save_mask := false
    save_patches := false
    output_downsample := 16
    downsample_mask := 16
    borders := "1111"
    corners := "0000"
    k_const := 10000
    minimum_segmentsize := 10000
    lines := 100
    sigma := mkRat 1 2
    thres := mkRat 1 2 }

/-- The ways `parse_args` can reject an argument list (argparse prints a
message and exits with status 2; we keep the structured cause). -/
inductive ParseError where
  | missingPositional : ParseError
  | unrecognizedArgument : String → ParseError
  | expectedOneArgument : String → ParseError
  | invalidValue : String → String → ParseError
  | invalidChoice : String → String → ParseError
deriving DecidableEq, Repr

/-- The six `action='store_true'` option strings. -/
def flagNames : List String :=
  ["--verbose", "--test-mode", "--save-tilecrossed-image", "--save-edges",
   "--save-mask", "--save-patches"]

/-- The eleven option strings that consume one value token. -/
def valueOptNames : List String :=
  ["--patch-size", "--output", "--output-downsample", "--downsample-mask",
   "--borders", "--corners", "--k-const", "--minimum_segmentsize",
   "--number-of-lines", "--sigma", "--content-threshold"]

/-- Effect of a `store_true` flag on the namespace. -/
def setFlag (opt : String) (cfg : Config) : Config :=
  if opt = "--verbose" then { cfg with verbose := true }
  else if opt = "--test-mode" then { cfg with test_mode := true }
  else if opt = "--save-tilecrossed-image" then { cfg with save_tilecrossed_image := true }
  else if opt = "--save-edges" then { cfg with save_edges := true }
  else if opt = "--save-mask" then { cfg with save_mask := true }
  else if opt = "--save-patches" then { cfg with save_patches := true }
  else cfg

/-- Effect of a value-taking option on the namespace: apply the declared
`type` converter, then the `choices` check where one is declared. -/
def applyValue (opt v : String) (cfg : Config) : Except ParseError Config :=
  match opt with
  | "--patch-size" =>
    match pyInt v with
    | some n => .ok { cfg with patch_size := n }
    | none => .error (.invalidValue opt v)
  | "--output" => .ok { cfg with output := v }
  | "--output-downsample" =>
    match pyInt v with
    | some n => .ok { cfg with output_downsample := n }
    | none => .error (.invalidValue opt v)
  | "--downsample-mask" =>
    match pyInt v with
    | some n => .ok { cfg with downsample_mask := n }
    | none => .error (.invalidValue opt v)
  | "--borders" =>
    if v ∈ combs then .ok { cfg with borders := v } else .error (.invalidChoice opt v)
  | "--corners" =>
    if v ∈ combs then .ok { cfg with corners := v } else .error (.invalidChoice opt v)
  | "--k-const" =>
    match pyInt v with
    | some n => .ok { cfg with k_const := n }
    | none => .error (.invalidValue opt v)
  | "--minimum_segmentsize" =>
    match pyInt v with
    | some n => .ok { cfg with minimum_segmentsize := n }
    | none => .error (.invalidValue opt v)
  | "--number-of-lines" =>
    match pyInt v with
    | some n => .ok { cfg with lines := n }
    | none => .error (.invalidValue opt v)
  | "--sigma" =>
    match pyFloat v with
    | some q => .ok { cfg with sigma := q }
    | none => .error (.invalidValue opt v)
  | "--content-threshold" =>
    match pyFloat v with
    | some q => .ok { cfg with thres := q }
    | none => .error (.invalidValue opt v)
  | _ => .error (.unrecognizedArgument opt)

/-- Token-by-token processing.  `pend = some opt` means option `opt` is
waiting for its value.  Non-option tokens outside a pending value position are
collected as positionals (returned in argv order). -/
def parseTokens : List String → Option String → Config → List String →
    Except ParseError (Config × List String)
  | [], none, cfg, pos => .ok (cfg, pos.reverse)
  | [], some opt, _, _ => .error (.expectedOneArgument opt)
  | tok :: rest, some opt, cfg, pos =>
    if tokenIsOption tok then .error (.expectedOneArgument opt)
    else
      match applyValue opt tok cfg with
      | .ok cfg2 => parseTokens rest none cfg2 pos
      | .error e => .error e
  | tok :: rest, none, cfg, pos =>
    if tokenIsOption tok then
      if tok ∈ flagNames then parseTokens rest none (setFlag tok cfg) pos
      else if tok ∈ valueOptNames then parseTokens rest (some tok) cfg pos
      else .error (.unrecognizedArgument tok)
    else parseTokens rest none cfg (tok :: pos)

/-- `build_parser().parse_args(argv)`: exactly one positional is required and
bound to `svs`; extra positionals are unrecognized. -/
def parse_args (argv : List String) : Except ParseError Config :=
  match parseTokens argv none initConfig [] with
  | .error e => .error e
  | .ok (cfg, pos) =>
    match pos with
    | [] => .error .missingPositional
    | [s] => .ok { cfg with svs := s }
    | _ :: t :: _ => .error (.unrecognizedArgument t)

deriving instance DecidableEq for Except

set_option maxRecDepth 8000

/-- `s` is a four-character string over the alphabet `{'0','1'}`. -/
def isBinary4 (s : String) : Prop :=
  s.length = 4 ∧ ∀ c ∈ s.data, c = '0' ∨ c = '1'

instance (s : String) : Decidable (isBinary4 s) := by
  unfold isBinary4; infer_instance

/-- The `choices` list, evaluated: exactly the sixteen binary 4-strings. -/
theorem combs_eq16 : combs =
    ["0000", "0001", "0010", "0011", "0100", "0101", "0110", "0111",
     "1000", "1001", "1010", "1011", "1100", "1101", "1110", "1111"] := by
  decide

theorem mem_combs_iff (s : String) : s ∈ combs ↔ isBinary4 s := by
  constructor
  · intro h
    rw [combs_eq16] at h
    fin_cases h <;> decide
  · rintro ⟨hl, hc⟩
    obtain ⟨data⟩ := s
    rcases data with _ | ⟨a, _ | ⟨b, _ | ⟨c, _ | ⟨d, _ | ⟨e, rest⟩⟩⟩⟩⟩ <;>
      simp only [String.length, List.length] at hl <;> try omega
    have ha := hc a (by simp)
    have hb := hc b (by simp)
    have hcc := hc c (by simp)
    have hd := hc d (by simp)
    rw [combs_eq16]
    rcases ha with rfl | rfl <;> rcases hb with rfl | rfl <;>
      rcases hcc with rfl | rfl <;> rcases hd with rfl | rfl <;> decide

theorem mem_combs_not_option {s : String} (h : s ∈ combs) :
    tokenIsOption s = false := by
  rw [combs_eq16] at h
  fin_cases h <;> decide

/-- Each value-taking option updates only its own destination field. -/
theorem applyValue_fields {opt v : String} {cfg c2 : Config}
    (h : applyValue opt v cfg = .ok c2) :
    (opt ≠ "--patch-size" → c2.patch_size = cfg.patch_size) ∧
    (opt ≠ "--output" → c2.output = cfg.output) ∧
    (opt ≠ "--output-downsample" → c2.output_downsample = cfg.output_downsample) ∧
    (opt ≠ "--downsample-mask" → c2.downsample_mask = cfg.downsample_mask) ∧
    (opt ≠ "--borders" → c2.borders = cfg.borders) ∧
    (opt ≠ "--corners" → c2.corners = cfg.corners) ∧
    (opt ≠ "--k-const" → c2.k_const = cfg.k_const) ∧
    (opt ≠ "--minimum_segmentsize" → c2.minimum_segmentsize = cfg.minimum_segmentsize) ∧
    (opt ≠ "--number-of-lines" → c2.lines = cfg.lines) ∧
    (opt ≠ "--sigma" → c2.sigma = cfg.sigma) ∧
    (opt ≠ "--content-threshold" → c2.thres = cfg.thres) ∧
    c2.verbose = cfg.verbose ∧ c2.test_mode = cfg.test_mode ∧
    c2.save_tilecrossed_image = cfg.save_tilecrossed_image ∧
    c2.save_edges = cfg.save_edges ∧ c2.save_mask = cfg.save_mask ∧
    c2.save_patches = cfg.save_patches ∧ c2.svs = cfg.svs := by
  unfold applyValue at h
  split at h <;> (try split at h) <;> (try (cases h)) <;>
    refine ⟨?_, ?_, ?_, ?_, ?_, ?_, ?_, ?_, ?_, ?_, ?_, ?_, ?_, ?_, ?_, ?_, ?_, ?_⟩ <;>
      first
        | rfl
        | (intro hne; rfl)
        | (intro hne; exact absurd rfl hne)

/-- Flags update only flag fields. -/
theorem setFlag_value_fields (opt : String) (cfg : Config) :
    (setFlag opt cfg).patch_size = cfg.patch_size ∧
    (setFlag opt cfg).output = cfg.output ∧
    (setFlag opt cfg).output_downsample = cfg.output_downsample ∧
    (setFlag opt cfg).downsample_mask = cfg.downsample_mask ∧
    (setFlag opt cfg).borders = cfg.borders ∧
    (setFlag opt cfg).corners = cfg.corners ∧
    (setFlag opt cfg).k_const = cfg.k_const ∧
    (setFlag opt cfg).minimum_segmentsize = cfg.minimum_segmentsize ∧
    (setFlag opt cfg).lines = cfg.lines ∧
    (setFlag opt cfg).sigma = cfg.sigma ∧
    (setFlag opt cfg).thres = cfg.thres ∧
    (setFlag opt cfg).svs = cfg.svs := by
  unfold setFlag
  split_ifs <;> simp_all

/-- A flag leaves every other flag field unchanged. -/
theorem setFlag_flag_fields (opt : String) (cfg : Config) :
    (opt ≠ "--verbose" → (setFlag opt cfg).verbose = cfg.verbose) ∧
    (opt ≠ "--test-mode" → (setFlag opt cfg).test_mode = cfg.test_mode) ∧
    (opt ≠ "--save-tilecrossed-image" →
      (setFlag opt cfg).save_tilecrossed_image = cfg.save_tilecrossed_image) ∧
    (opt ≠ "--save-edges" → (setFlag opt cfg).save_edges = cfg.save_edges) ∧
    (opt ≠ "--save-mask" → (setFlag opt cfg).save_mask = cfg.save_mask) ∧
    (opt ≠ "--save-patches" → (setFlag opt cfg).save_patches = cfg.save_patches) := by
  unfold setFlag
  split_ifs <;> simp_all

/-- A flag field, once `true`, is never reset by another flag. -/
theorem setFlag_mono (f : Config → Bool)
    (hf : f = Config.verbose ∨ f = Config.test_mode ∨
      f = Config.save_tilecrossed_image ∨ f = Config.save_edges ∨
      f = Config.save_mask ∨ f = Config.save_patches)
    (opt : String) (cfg : Config) (h : f cfg = true) : f (setFlag opt cfg) = true := by
  unfold setFlag
  rcases hf with rfl | rfl | rfl | rfl | rfl | rfl <;> split_ifs <;> simp_all

/-- Frame rule: a run that never mentions an option string leaves its
destination field untouched. -/
theorem parseTokens_preserve {α : Type} (f : Config → α) (name : String)
    (hflag : ∀ tok cfg, tok ≠ name → f (setFlag tok cfg) = f cfg)
    (hval : ∀ opt v cfg c2, opt ≠ name → applyValue opt v cfg = .ok c2 → f c2 = f cfg) :
    ∀ toks pend cfg pos c2 pos2,
      parseTokens toks pend cfg pos = .ok (c2, pos2) →
      name ∉ toks → pend ≠ some name → f c2 = f cfg := by
  intro toks
  induction toks with
  | nil =>
    intro pend cfg pos c2 pos2 h _ _
    cases pend with
    | none =>
      simp only [parseTokens, Except.ok.injEq, Prod.mk.injEq] at h
      rw [h.1]
    | some opt => simp [parseTokens] at h
  | cons tok rest ih =>
    intro pend cfg pos c2 pos2 h hmem hpend
    have hm1 : tok ≠ name := fun he => hmem (he ▸ List.mem_cons_self tok rest)
    have hm2 : name ∉ rest := fun he => hmem (List.mem_cons_of_mem tok he)
    cases pend with
    | some opt =>
      by_cases ht : tokenIsOption tok
      · simp [parseTokens, ht] at h
      · simp only [parseTokens, ht, Bool.false_eq_true, if_false] at h
        cases happ : applyValue opt tok cfg with
        | error e => rw [happ] at h; cases h
        | ok c3 =>
          rw [happ] at h
          have hopt : opt ≠ name := fun he => hpend (by rw [he])
          rw [ih none c3 pos c2 pos2 h hm2 (by simp)]
          exact hval opt tok cfg c3 hopt happ
    | none =>
      by_cases ht : tokenIsOption tok
      · by_cases hf : tok ∈ flagNames
        · simp only [parseTokens, ht, if_true, hf] at h
          rw [ih none (setFlag tok cfg) pos c2 pos2 h hm2 (by simp)]
          exact hflag tok cfg hm1
        · by_cases hv2 : tok ∈ valueOptNames
          · simp only [parseTokens, ht, if_true, hf, if_false, hv2] at h
            exact ih (some tok) cfg pos c2 pos2 h hm2
              (fun he => hm1 (by injection he))
          · simp [parseTokens, ht, hf, hv2] at h
      · simp only [parseTokens, ht, Bool.false_eq_true, if_false] at h
        exact ih none cfg (tok :: pos) c2 pos2 h hm2 (by simp)

/-- A present flag sets its field, and nothing later resets it. -/
theorem parseTokens_flag (f : Config → Bool) (name : String)
    (hopt : tokenIsOption name = true) (hnv : name ∉ valueOptNames)
    (hself : ∀ cfg, f (setFlag name cfg) = true)
    (hmono : ∀ tok cfg, f cfg = true → f (setFlag tok cfg) = true)
    (hval : ∀ opt v cfg c2, applyValue opt v cfg = .ok c2 → f c2 = f cfg) :
    ∀ toks pend cfg pos c2 pos2,
      parseTokens toks pend cfg pos = .ok (c2, pos2) →
      (name ∈ toks ∨ f cfg = true) → f c2 = true := by
  intro toks
  induction toks with
  | nil =>
    intro pend cfg pos c2 pos2 h hd
    cases pend with
    | none =>
      simp only [parseTokens, Except.ok.injEq, Prod.mk.injEq] at h
      rcases hd with hd | hd
      · cases hd
      · rw [← h.1]; exact hd
    | some opt => simp [parseTokens] at h
  | cons tok rest ih =>
    intro pend cfg pos c2 pos2 h hd
    cases pend with
    | some opt =>
      by_cases ht : tokenIsOption tok
      · simp [parseTokens, ht] at h
      · simp only [parseTokens, ht, Bool.false_eq_true, if_false] at h
        have htok : tok ≠ name := fun he => by rw [he] at ht; exact ht hopt
        cases happ : applyValue opt tok cfg with
        | error e => rw [happ] at h; cases h
        | ok c3 =>
          rw [happ] at h
          refine ih none c3 pos c2 pos2 h ?_
          rcases hd with hd | hd
          · exact Or.inl ((List.mem_cons.mp hd).resolve_left fun he =>
              htok he.symm)
          · exact Or.inr (by rw [hval opt tok cfg c3 happ]; exact hd)
    | none =>
      by_cases ht : tokenIsOption tok
      · by_cases hf : tok ∈ flagNames
        · simp only [parseTokens, ht, if_true, hf] at h
          by_cases he : tok = name
          · subst he
            exact ih none (setFlag tok cfg) pos c2 pos2 h (Or.inr (hself cfg))
          · refine ih none (setFlag tok cfg) pos c2 pos2 h ?_
            rcases hd with hd | hd
            · exact Or.inl ((List.mem_cons.mp hd).resolve_left fun h2 =>
                he h2.symm)
            · exact Or.inr (hmono tok cfg hd)
        · by_cases hv2 : tok ∈ valueOptNames
          · simp only [parseTokens, ht, if_true, hf, if_false, hv2] at h
            refine ih (some tok) cfg pos c2 pos2 h ?_
            rcases hd with hd | hd
            · refine Or.inl ((List.mem_cons.mp hd).resolve_left fun h2 => ?_)
              exact hnv (by rw [h2]; exact hv2)
            · exact Or.inr hd
          · simp [parseTokens, ht, hf, hv2] at h
      · simp only [parseTokens, ht, Bool.false_eq_true, if_false] at h
        refine ih none cfg (tok :: pos) c2 pos2 h ?_
        rcases hd with hd | hd
        · refine Or.inl ((List.mem_cons.mp hd).resolve_left fun h2 => ?_)
          rw [← h2] at ht; exact ht hopt
        · exact Or.inr hd

/-- `parse_args` frame rule: omitting an option leaves its field at the
default from `initConfig`. -/
theorem parse_args_preserve {α : Type} (f : Config → α) (name : String)
    (hflag : ∀ tok cfg, tok ≠ name → f (setFlag tok cfg) = f cfg)
    (hval : ∀ opt v cfg c2, opt ≠ name → applyValue opt v cfg = .ok c2 → f c2 = f cfg)
    (hsvs : ∀ cfg s, f { cfg with svs := s } = f cfg) :
    ∀ argv cfg, parse_args argv = .ok cfg → name ∉ argv → f cfg = f initConfig := by
  intro argv cfg h hmem
  unfold parse_args at h
  cases hrun : parseTokens argv none initConfig [] with
  | error e => rw [hrun] at h; cases h
  | ok r =>
    obtain ⟨c, pos⟩ := r
    rw [hrun] at h
    match pos, h with
    | [], h => cases h
    | [s], h =>
      cases h
      rw [hsvs]
      exact parseTokens_preserve f name hflag hval argv none initConfig [] c [s]
        hrun hmem (by simp)
    | p :: t :: ts, h => cases h

/-- `parse_args` flag rule: a `store_true` destination is `true` iff its flag
token occurs in the argument list. -/
theorem parse_args_flagIff (f : Config → Bool) (name : String)
    (hopt : tokenIsOption name = true) (hnv : name ∉ valueOptNames)
    (hself : ∀ cfg, f (setFlag name cfg) = true)
    (hmono : ∀ tok cfg, f cfg = true → f (setFlag tok cfg) = true)
    (hflag : ∀ tok cfg, tok ≠ name → f (setFlag tok cfg) = f cfg)
    (hval : ∀ opt v cfg c2, applyValue opt v cfg = .ok c2 → f c2 = f cfg)
    (hsvs : ∀ cfg s, f { cfg with svs := s } = f cfg)
    (hinit : f initConfig = false) :
    ∀ argv cfg, parse_args argv = .ok cfg → (f cfg = true ↔ name ∈ argv) := by
  intro argv cfg h
  constructor
  · intro htrue
    by_contra hmem
    have := parse_args_preserve f name hflag
      (fun opt v cfg0 c2 _ happ => hval opt v cfg0 c2 happ) hsvs argv cfg h hmem
    rw [htrue, hinit] at this
    cases this
  · intro hmem
    unfold parse_args at h
    cases hrun : parseTokens argv none initConfig [] with
    | error e => rw [hrun] at h; cases h
    | ok r =>
      obtain ⟨c, pos⟩ := r
      rw [hrun] at h
      match pos, h with
      | [], h => cases h
      | [s], h =>
        cases h
        rw [hsvs]
        exact parseTokens_flag f name hopt hnv hself hmono hval argv none
          initConfig [] c [s] hrun (Or.inl hmem)
      | p :: t :: ts, h => cases h

/-- A single non-option token parses as the positional `svs`. -/
theorem parse_single_positional (p : String) (hp : tokenIsOption p = false) :
    parse_args [p] = .ok { initConfig with svs := p } := by
  simp [parse_args, parseTokens, hp]

/-- A run that collects no positional fails with the
missing-required-argument error. -/
theorem parse_args_no_positional (argv : List String) (c : Config)
    (hrun : parseTokens argv none initConfig [] = .ok (c, [])) :
    parse_args argv = .error .missingPositional := by
  unfold parse_args
  rw [hrun]

/-- Symbolic run of `--patch-size v p`: the value token is converted with
`int(...)` and stored. -/
theorem parse_patch_size (v p : String)
    (ho : tokenIsOption v = false) (hp : tokenIsOption p = false) :
    parse_args ["--patch-size", v, p] =
      match pyInt v with
      | some n => .ok { initConfig with patch_size := n, svs := p }
      | none => .error (.invalidValue "--patch-size" v) := by
  have h1 : tokenIsOption "--patch-size" = true := by decide
  have h2 : "--patch-size" ∉ flagNames := by decide
  have h3 : "--patch-size" ∈ valueOptNames := by decide
  cases hv : pyInt v <;>
    simp [parse_args, parseTokens, h1, h2, h3, ho, hp, applyValue, hv]

/-- Symbolic run of `--k-const v p`: any `int(...)`-convertible value is
stored, with no range validation. -/
theorem parse_k_const (v p : String) (n : Int) (hv : pyInt v = some n)
    (ho : tokenIsOption v = false) (hp : tokenIsOption p = false) :
    parse_args ["--k-const", v, p] =
      .ok { initConfig with k_const := n, svs := p } := by
  have h1 : tokenIsOption "--k-const" = true := by decide
  have h2 : "--k-const" ∉ flagNames := by decide
  have h3 : "--k-const" ∈ valueOptNames := by decide
  simp [parse_args, parseTokens, h1, h2, h3, ho, hp, applyValue, hv]

/-- Symbolic run of `--minimum_segmentsize v p`: any `int(...)`-convertible
value is stored, with no range validation. -/
theorem parse_min_segmentsize (v p : String) (n : Int) (hv : pyInt v = some n)
    (ho : tokenIsOption v = false) (hp : tokenIsOption p = false) :
    parse_args ["--minimum_segmentsize", v, p] =
      .ok { initConfig with minimum_segmentsize := n, svs := p } := by
  have h1 : tokenIsOption "--minimum_segmentsize" = true := by decide
  have h2 : "--minimum_segmentsize" ∉ flagNames := by decide
  have h3 : "--minimum_segmentsize" ∈ valueOptNames := by decide
  simp [parse_args, parseTokens, h1, h2, h3, ho, hp, applyValue, hv]

/-- Symbolic run of `--content-threshold v p`: any `float(...)`-convertible
value is stored, with no range validation. -/
theorem parse_content_threshold (v p : String) (q : Rat) (hv : pyFloat v = some q)
    (ho : tokenIsOption v = false) (hp : tokenIsOption p = false) :
    parse_args ["--content-threshold", v, p] =
      .ok { initConfig with thres := q, svs := p } := by
  have h1 : tokenIsOption "--content-threshold" = true := by decide
  have h2 : "--content-threshold" ∉ flagNames := by decide
  have h3 : "--content-threshold" ∈ valueOptNames := by decide
  simp [parse_args, parseTokens, h1, h2, h3, ho, hp, applyValue, hv]

/-- Symbolic run of `--borders b --corners c p`: each value only has to pass
its own `choices` check; no cross-field exclusivity check exists. -/
theorem parse_borders_corners (b c p : String)
    (hb : b ∈ combs) (hc : c ∈ combs) (hp : tokenIsOption p = false) :
    parse_args ["--borders", b, "--corners", c, p] =
      .ok { initConfig with borders := b, corners := c, svs := p } := by
  have h1 : tokenIsOption "--borders" = true := by decide
  have h2 : "--borders" ∉ flagNames := by decide
  have h3 : "--borders" ∈ valueOptNames := by decide
  have h4 : tokenIsOption "--corners" = true := by decide
  have h5 : "--corners" ∉ flagNames := by decide
  have h6 : "--corners" ∈ valueOptNames := by decide
  have hob := mem_combs_not_option hb
  have hoc := mem_combs_not_option hc
  simp [parse_args, parseTokens, h1, h2, h3, h4, h5, h6, hob, hoc, hp,
    applyValue, hb, hc]

/-- Full case analysis of `--borders s p`. -/
theorem parse_borders_eval (s p : String) (hp : tokenIsOption p = false) :
    parse_args ["--borders", s, p] =
      if tokenIsOption s then .error (.expectedOneArgument "--borders")
      else if s ∈ combs then .ok { initConfig with borders := s, svs := p }
      else .error (.invalidChoice "--borders" s) := by
  have h1 : tokenIsOption "--borders" = true := by decide
  have h2 : "--borders" ∉ flagNames := by decide
  have h3 : "--borders" ∈ valueOptNames := by decide
  by_cases ho : tokenIsOption s
  · simp [parse_args, parseTokens, h1, h2, h3, ho]
  · by_cases hm : s ∈ combs <;>
      simp [parse_args, parseTokens, h1, h2, h3, ho, hm, applyValue, hp]

/-- Full case analysis of `--corners s p`. -/
theorem parse_corners_eval (s p : String) (hp : tokenIsOption p = false) :
    parse_args ["--corners", s, p] =
      if tokenIsOption s then .error (.expectedOneArgument "--corners")
      else if s ∈ combs then .ok { initConfig with corners := s, svs := p }
      else .error (.invalidChoice "--corners" s) := by
  have h1 : tokenIsOption "--corners" = true := by decide
  have h2 : "--corners" ∉ flagNames := by decide
  have h3 : "--corners" ∈ valueOptNames := by decide
  by_cases ho : tokenIsOption s
  · simp [parse_args, parseTokens, h1, h2, h3, ho]
  · by_cases hm : s ∈ combs <;>
      simp [parse_args, parseTokens, h1, h2, h3, ho, hm, applyValue, hp]

theorem isBinary4_not_option {s : String} (h : isBinary4 s) :
    tokenIsOption s = false := by
  obtain ⟨hl, hc⟩ := h
  obtain ⟨data⟩ := s
  rcases data with _ | ⟨a, _ | ⟨b, rest⟩⟩ <;>
    simp only [String.length, List.length] at hl <;> try omega
  have ha := hc a (by simp)
  rcases ha with rfl | rfl <;> simp [tokenIsOption]

/-- C1, corrected: the configuration boundary raises no ConflictingSelectors
error at all.  For every pair of selector values accepted by `choices`,
parsing succeeds — even when both `--borders` and `--corners` are non-zero.
The mutual exclusivity exists only in the help text, not as a check. -/
theorem selectors_never_conflict (b c : String) (hb : b ∈ combs) (hc : c ∈ combs) :
    parse_args ["--borders", b, "--corners", c, "slide.svs"] =
      .ok { initConfig with borders := b, corners := c, svs := "slide.svs" } :=
  parse_borders_corners b c "slide.svs" hb hc (by decide)

/-- C1 witness: a concrete run of `selectors_never_conflict`. -/
theorem selectors_never_conflict_witness :
    "0101" ∈ combs ∧ "1010" ∈ combs ∧
      parse_args ["--borders", "0101", "--corners", "1010", "slide.svs"] =
        .ok { initConfig with borders := "0101", corners := "1010", svs := "slide.svs" } :=
  ⟨(mem_combs_iff "0101").mpr (by decide), (mem_combs_iff "1010").mpr (by decide),
    selectors_never_conflict "0101" "1010"
      ((mem_combs_iff "0101").mpr (by decide))
      ((mem_combs_iff "1010").mpr (by decide))⟩

/-- C1 counterexample: with `--borders 1010 --corners 0101` (both non-zero)
the claim demands an error, but parsing succeeds. -/
theorem selectors_conflict_counterexample :
    parse_args ["--borders", "1010", "--corners", "0101", "slide.svs"] =
      .ok { initConfig with borders := "1010", corners := "0101", svs := "slide.svs" } :=
  parse_borders_corners "1010" "0101" "slide.svs"
    ((mem_combs_iff "1010").mpr (by decide))
    ((mem_combs_iff "0101").mpr (by decide)) (by decide)

/-- C2, corrected: `--content-threshold` performs no range validation: every
`float(...)`-convertible value is accepted and stored verbatim, values
outside `[0,1]` included; when the flag is omitted the threshold keeps its
default `0.5` (= `mkRat 1 2`). -/
theorem content_threshold_unvalidated :
    (∀ argv cfg, parse_args argv = .ok cfg → "--content-threshold" ∉ argv →
      cfg.thres = mkRat 1 2) ∧
    (∀ v q, pyFloat v = some q → tokenIsOption v = false →
      parse_args ["--content-threshold", v, "slide.svs"] =
        .ok { initConfig with thres := q, svs := "slide.svs" }) := by
  constructor
  · intro argv cfg h hmem
    refine (parse_args_preserve Config.thres "--content-threshold" ?_ ?_
      (fun cfg0 s => rfl) argv cfg h hmem).trans rfl
    · intro tok cfg0 _
      exact (setFlag_value_fields tok cfg0).2.2.2.2.2.2.2.2.2.2.1
    · intro opt v cfg0 c2 hne happ
      obtain ⟨-, -, -, -, -, -, -, -, -, -, h11, -⟩ := applyValue_fields happ
      exact h11 hne
  · intro v q hv ho
    exact parse_content_threshold v "slide.svs" q hv ho (by decide)

/-- C2 witness: a concrete run of `content_threshold_unvalidated` at the
out-of-range value `2.5`. -/
theorem content_threshold_unvalidated_witness :
    pyFloat "2.5" = some (mkRat 5 2) ∧
      parse_args ["--content-threshold", "2.5", "slide.svs"] =
        .ok { initConfig with thres := mkRat 5 2, svs := "slide.svs" } :=
  ⟨by decide, content_threshold_unvalidated.2 "2.5" (mkRat 5 2)
    (by decide) (by decide)⟩

/-- C2 counterexample: `--content-threshold 2.0` lies outside `[0,1]`, so the
claim demands rejection with InvalidParameter, but parsing succeeds and
stores the value 2. -/
theorem content_threshold_counterexample :
    ¬((2 : Rat) ≤ 1) ∧
      parse_args ["--content-threshold", "2.0", "slide.svs"] =
        .ok { initConfig with thres := 2, svs := "slide.svs" } :=
  ⟨by decide, parse_content_threshold "2.0" "slide.svs" 2
    (by decide) (by decide) (by decide)⟩

/-- C3, corrected: the parser applies only `int(...)` to `--k-const` and
`--minimum_segmentsize`; no positivity validation exists anywhere in the
argument-parsing shell, so non-positive values are accepted and stored. -/
theorem k_and_segmentsize_unvalidated (v : String) (n : Int)
    (hv : pyInt v = some n) (ho : tokenIsOption v = false) :
    parse_args ["--k-const", v, "slide.svs"] =
      .ok { initConfig with k_const := n, svs := "slide.svs" } ∧
    parse_args ["--minimum_segmentsize", v, "slide.svs"] =
      .ok { initConfig with minimum_segmentsize := n, svs := "slide.svs" } :=
  ⟨parse_k_const v "slide.svs" n hv ho (by decide),
    parse_min_segmentsize v "slide.svs" n hv ho (by decide)⟩

/-- C3 witness: a concrete run of `k_and_segmentsize_unvalidated` at the
non-positive value 0. -/
theorem k_and_segmentsize_unvalidated_witness :
    pyInt "0" = some 0 ∧
      parse_args ["--k-const", "0", "slide.svs"] =
        .ok { initConfig with k_const := 0, svs := "slide.svs" } ∧
      parse_args ["--minimum_segmentsize", "0", "slide.svs"] =
        .ok { initConfig with minimum_segmentsize := 0, svs := "slide.svs" } :=
  ⟨by decide,
    (k_and_segmentsize_unvalidated "0" 0 (by decide) (by decide)).1,
    (k_and_segmentsize_unvalidated "0" 0 (by decide) (by decide)).2⟩

/-- C3 counterexample: `-5 ≤ 0`, so the claim demands an InvalidParameter
failure, but both options accept it and the run reaches a parsed
configuration. -/
theorem negative_k_accepted_counterexample :
    (-5 : Int) ≤ 0 ∧
      parse_args ["--k-const", "-5", "slide.svs"] =
        .ok { initConfig with k_const := -5, svs := "slide.svs" } ∧
      parse_args ["--minimum_segmentsize", "-5", "slide.svs"] =
        .ok { initConfig with minimum_segmentsize := -5, svs := "slide.svs" } :=
  ⟨by decide,
    parse_k_const "-5" "slide.svs" (-5) (by decide) (by decide) (by decide),
    parse_min_segmentsize "-5" "slide.svs" (-5) (by decide) (by decide)
      (by decide)⟩

/-- C4, confirmed: the accepted values of `--borders` and `--corners` are
exactly the sixteen four-character strings over `{'0','1'}`, although the
source constructs them by deduplicating length-4 permutations of the
multiset `00001111`: membership in `choices` coincides with `isBinary4`,
and the parser accepts a selector value iff it is such a string. -/
theorem choices_exactly_binary4 :
    (∀ s, s ∈ combs ↔ isBinary4 s) ∧
    (∀ s, (parse_args ["--borders", s, "slide.svs"]).isOk = true ↔ isBinary4 s) ∧
    (∀ s, (parse_args ["--corners", s, "slide.svs"]).isOk = true ↔ isBinary4 s) := by
  refine ⟨mem_combs_iff, fun s => ?_, fun s => ?_⟩
  · rw [parse_borders_eval s "slide.svs" (by decide)]
    by_cases ht : tokenIsOption s
    · simp only [ht, if_true]
      constructor
      · intro h; cases h
      · intro hb; rw [isBinary4_not_option hb] at ht; cases ht
    · by_cases hm : s ∈ combs
      · simp only [ht, Bool.false_eq_true, if_false, hm, if_true, Except.isOk]
        exact ⟨fun _ => (mem_combs_iff s).mp hm, fun _ => rfl⟩
      · simp only [ht, Bool.false_eq_true, if_false, hm, Except.isOk]
        constructor
        · intro h; cases h
        · intro hb; exact absurd ((mem_combs_iff s).mpr hb) hm
  · rw [parse_corners_eval s "slide.svs" (by decide)]
    by_cases ht : tokenIsOption s
    · simp only [ht, if_true]
      constructor
      · intro h; cases h
      · intro hb; rw [isBinary4_not_option hb] at ht; cases ht
    · by_cases hm : s ∈ combs
      · simp only [ht, Bool.false_eq_true, if_false, hm, if_true, Except.isOk]
        exact ⟨fun _ => (mem_combs_iff s).mp hm, fun _ => rfl⟩
      · simp only [ht, Bool.false_eq_true, if_false, hm, Except.isOk]
        constructor
        · intro h; cases h
        · intro hb; exact absurd ((mem_combs_iff s).mpr hb) hm

/-- C5, confirmed: omitting `--borders` leaves the parsed value `"1111"` and
omitting `--corners` leaves `"0000"`, and both defaults are members of the
parser's `choices`. -/
theorem borders_corners_defaults :
    ("1111" ∈ combs ∧ "0000" ∈ combs) ∧
    ∀ argv cfg, parse_args argv = .ok cfg →
      ("--borders" ∉ argv → cfg.borders = "1111") ∧
      ("--corners" ∉ argv → cfg.corners = "0000") := by
  refine ⟨⟨(mem_combs_iff "1111").mpr (by decide),
    (mem_combs_iff "0000").mpr (by decide)⟩, fun argv cfg h => ⟨?_, ?_⟩⟩
  · intro hmem
    refine (parse_args_preserve Config.borders "--borders" ?_ ?_
      (fun cfg0 s => rfl) argv cfg h hmem).trans rfl
    · intro tok cfg0 _
      exact (setFlag_value_fields tok cfg0).2.2.2.2.1
    · intro opt v cfg0 c2 hne happ
      obtain ⟨-, -, -, -, h5, -⟩ := applyValue_fields happ
      exact h5 hne
  · intro hmem
    refine (parse_args_preserve Config.corners "--corners" ?_ ?_
      (fun cfg0 s => rfl) argv cfg h hmem).trans rfl
    · intro tok cfg0 _
      exact (setFlag_value_fields tok cfg0).2.2.2.2.2.1
    · intro opt v cfg0 c2 hne happ
      obtain ⟨-, -, -, -, -, h6, -⟩ := applyValue_fields happ
      exact h6 hne

/-- C5 witness: a concrete run of `borders_corners_defaults` on an argument
list omitting both selectors. -/
theorem borders_corners_defaults_witness :
    Config.borders { initConfig with svs := "slide.svs" } = "1111" ∧
    Config.corners { initConfig with svs := "slide.svs" } = "0000" := by
  have h := borders_corners_defaults.2 ["slide.svs"]
    { initConfig with svs := "slide.svs" } (by decide)
  exact ⟨h.1 (by decide), h.2 (by decide)⟩

/-- C6, confirmed: omitting the segmentation options leaves `k_const = 10000`,
`minimum_segmentsize = 10000`, `lines = 100` and `sigma = 0.5`
(= `mkRat 1 2`), per option independently. -/
theorem segmentation_defaults :
    ∀ argv cfg, parse_args argv = .ok cfg →
      ("--k-const" ∉ argv → cfg.k_const = 10000) ∧
      ("--minimum_segmentsize" ∉ argv → cfg.minimum_segmentsize = 10000) ∧
      ("--number-of-lines" ∉ argv → cfg.lines = 100) ∧
      ("--sigma" ∉ argv → cfg.sigma = mkRat 1 2) := by
  intro argv cfg h
  refine ⟨fun hmem => ?_, fun hmem => ?_, fun hmem => ?_, fun hmem => ?_⟩
  · refine (parse_args_preserve Config.k_const "--k-const" ?_ ?_
      (fun cfg0 s => rfl) argv cfg h hmem).trans rfl
    · intro tok cfg0 _
      exact (setFlag_value_fields tok cfg0).2.2.2.2.2.2.1
    · intro opt v cfg0 c2 hne happ
      obtain ⟨-, -, -, -, -, -, h7, -⟩ := applyValue_fields happ
      exact h7 hne
  · refine (parse_args_preserve Config.minimum_segmentsize "--minimum_segmentsize"
      ?_ ?_ (fun cfg0 s => rfl) argv cfg h hmem).trans rfl
    · intro tok cfg0 _
      exact (setFlag_value_fields tok cfg0).2.2.2.2.2.2.2.1
    · intro opt v cfg0 c2 hne happ
      obtain ⟨-, -, -, -, -, -, -, h8, -⟩ := applyValue_fields happ
      exact h8 hne
  · refine (parse_args_preserve Config.lines "--number-of-lines" ?_ ?_
      (fun cfg0 s => rfl) argv cfg h hmem).trans rfl
    · intro tok cfg0 _
      exact (setFlag_value_fields tok cfg0).2.2.2.2.2.2.2.2.1
    · intro opt v cfg0 c2 hne happ
      obtain ⟨-, -, -, -, -, -, -, -, h9, -⟩ := applyValue_fields happ
      exact h9 hne
  · refine (parse_args_preserve Config.sigma "--sigma" ?_ ?_
      (fun cfg0 s => rfl) argv cfg h hmem).trans rfl
    · intro tok cfg0 _
      exact (setFlag_value_fields tok cfg0).2.2.2.2.2.2.2.2.2.1
    · intro opt v cfg0 c2 hne happ
      obtain ⟨-, -, -, -, -, -, -, -, -, h10, -⟩ := applyValue_fields happ
      exact h10 hne

/-- C6 witness: a concrete run of `segmentation_defaults` on an argument
list omitting all four options. -/
theorem segmentation_defaults_witness :
    Config.k_const { initConfig with svs := "slide.svs" } = 10000 ∧
    Config.minimum_segmentsize { initConfig with svs := "slide.svs" } = 10000 ∧
    Config.lines { initConfig with svs := "slide.svs" } = 100 ∧
    Config.sigma { initConfig with svs := "slide.svs" } = mkRat 1 2 := by
  have h := segmentation_defaults ["slide.svs"]
    { initConfig with svs := "slide.svs" } (by decide)
  exact ⟨h.1 (by decide), h.2.1 (by decide), h.2.2.1 (by decide),
    h.2.2.2 (by decide)⟩

/-- C7, confirmed: omitting `--patch-size` leaves the parsed patch size 512;
a supplied value goes through `int(...)`: convertible values are stored,
non-convertible values are rejected. -/
theorem patch_size_default_and_int :
    (∀ argv cfg, parse_args argv = .ok cfg → "--patch-size" ∉ argv →
      cfg.patch_size = 512) ∧
    (∀ v n, pyInt v = some n → tokenIsOption v = false →
      parse_args ["--patch-size", v, "slide.svs"] =
        .ok { initConfig with patch_size := n, svs := "slide.svs" }) ∧
    (∀ v, pyInt v = none → tokenIsOption v = false →
      parse_args ["--patch-size", v, "slide.svs"] =
        .error (.invalidValue "--patch-size" v)) := by
  refine ⟨fun argv cfg h hmem => ?_, fun v n hv ho => ?_, fun v hv ho => ?_⟩
  · refine (parse_args_preserve Config.patch_size "--patch-size" ?_ ?_
      (fun cfg0 s => rfl) argv cfg h hmem).trans rfl
    · intro tok cfg0 _
      exact (setFlag_value_fields tok cfg0).1
    · intro opt v cfg0 c2 hne happ
      obtain ⟨h1, -⟩ := applyValue_fields happ
      exact h1 hne
  · rw [parse_patch_size v "slide.svs" ho (by decide), hv]
  · rw [parse_patch_size v "slide.svs" ho (by decide), hv]

/-- C7 witness: a concrete run of `patch_size_default_and_int`. -/
theorem patch_size_default_and_int_witness :
    Config.patch_size { initConfig with svs := "slide.svs" } = 512 ∧
    pyInt "640" = some 640 ∧
    parse_args ["--patch-size", "640", "slide.svs"] =
      .ok { initConfig with patch_size := 640, svs := "slide.svs" } :=
  ⟨patch_size_default_and_int.1 ["slide.svs"]
      { initConfig with svs := "slide.svs" } (by decide) (by decide),
    by decide,
    patch_size_default_and_int.2.1 "640" 640 (by decide) (by decide)⟩

/-- C8, confirmed: omitting the output and downsampling options leaves
`output = "output/"`, `output_downsample = 16` and `downsample_mask = 16`,
per option independently. -/
theorem output_downsampling_defaults :
    ∀ argv cfg, parse_args argv = .ok cfg →
      ("--output" ∉ argv → cfg.output = "output/") ∧
      ("--output-downsample" ∉ argv → cfg.output_downsample = 16) ∧
      ("--downsample-mask" ∉ argv → cfg.downsample_mask = 16) := by
  intro argv cfg h
  refine ⟨fun hmem => ?_, fun hmem => ?_, fun hmem => ?_⟩
  · refine (parse_args_preserve Config.output "--output" ?_ ?_
      (fun cfg0 s => rfl) argv cfg h hmem).trans rfl
    · intro tok cfg0 _
      exact (setFlag_value_fields tok cfg0).2.1
    · intro opt v cfg0 c2 hne happ
      obtain ⟨-, h2, -⟩ := applyValue_fields happ
      exact h2 hne
  · refine (parse_args_preserve Config.output_downsample "--output-downsample"
      ?_ ?_ (fun cfg0 s => rfl) argv cfg h hmem).trans rfl
    · intro tok cfg0 _
      exact (setFlag_value_fields tok cfg0).2.2.1
    · intro opt v cfg0 c2 hne happ
      obtain ⟨-, -, h3, -⟩ := applyValue_fields happ
      exact h3 hne
  · refine (parse_args_preserve Config.downsample_mask "--downsample-mask"
      ?_ ?_ (fun cfg0 s => rfl) argv cfg h hmem).trans rfl
    · intro tok cfg0 _
      exact (setFlag_value_fields tok cfg0).2.2.2.1
    · intro opt v cfg0 c2 hne happ
      obtain ⟨-, -, -, h4, -⟩ := applyValue_fields happ
      exact h4 hne

/-- C8 witness: a concrete run of `output_downsampling_defaults`. -/
theorem output_downsampling_defaults_witness :
    Config.output { initConfig with svs := "slide.svs" } = "output/" ∧
    Config.output_downsample { initConfig with svs := "slide.svs" } = 16 ∧
    Config.downsample_mask { initConfig with svs := "slide.svs" } = 16 := by
  have h := output_downsampling_defaults ["slide.svs"]
    { initConfig with svs := "slide.svs" } (by decide)
  exact ⟨h.1 (by decide), h.2.1 (by decide), h.2.2 (by decide)⟩

/-- C9, confirmed: each of the six `store_true` destinations is `true` in a
successfully parsed configuration exactly when its flag token occurs in the
argument list (so `false` whenever it is absent), and a flag followed by a
token does not consume it — the follower is still available as the
positional. -/
theorem store_true_flags :
    (∀ argv cfg, parse_args argv = .ok cfg →
      ((cfg.verbose = true ↔ "--verbose" ∈ argv) ∧
       (cfg.test_mode = true ↔ "--test-mode" ∈ argv) ∧
       (cfg.save_tilecrossed_image = true ↔ "--save-tilecrossed-image" ∈ argv) ∧
       (cfg.save_edges = true ↔ "--save-edges" ∈ argv) ∧
       (cfg.save_mask = true ↔ "--save-mask" ∈ argv) ∧
       (cfg.save_patches = true ↔ "--save-patches" ∈ argv))) ∧
    (parse_args ["--verbose", "slide.svs"] =
        .ok { initConfig with verbose := true, svs := "slide.svs" } ∧
     parse_args ["--test-mode", "slide.svs"] =
        .ok { initConfig with test_mode := true, svs := "slide.svs" } ∧
     parse_args ["--save-tilecrossed-image", "slide.svs"] =
        .ok { initConfig with save_tilecrossed_image := true, svs := "slide.svs" } ∧
     parse_args ["--save-edges", "slide.svs"] =
        .ok { initConfig with save_edges := true, svs := "slide.svs" } ∧
     parse_args ["--save-mask", "slide.svs"] =
        .ok { initConfig with save_mask := true, svs := "slide.svs" } ∧
     parse_args ["--save-patches", "slide.svs"] =
        .ok { initConfig with save_patches := true, svs := "slide.svs" }) := by
  refine ⟨fun argv cfg h => ⟨?_, ?_, ?_, ?_, ?_, ?_⟩,
    by decide, by decide, by decide, by decide, by decide, by decide⟩
  · refine parse_args_flagIff Config.verbose "--verbose" (by decide) (by decide)
      (fun cfg0 => by simp [setFlag]) (setFlag_mono Config.verbose (Or.inl rfl))
      (fun tok cfg0 hne => (setFlag_flag_fields tok cfg0).1 hne)
      (fun opt v cfg0 c2 happ => ?_) (fun cfg0 s => rfl) rfl argv cfg h
    obtain ⟨-, -, -, -, -, -, -, -, -, -, -, h12, -⟩ := applyValue_fields happ
    exact h12
  · refine parse_args_flagIff Config.test_mode "--test-mode" (by decide)
      (by decide) (fun cfg0 => by simp [setFlag])
      (setFlag_mono Config.test_mode (Or.inr (Or.inl rfl)))
      (fun tok cfg0 hne => (setFlag_flag_fields tok cfg0).2.1 hne)
      (fun opt v cfg0 c2 happ => ?_) (fun cfg0 s => rfl) rfl argv cfg h
    obtain ⟨-, -, -, -, -, -, -, -, -, -, -, -, h13, -⟩ := applyValue_fields happ
    exact h13
  · refine parse_args_flagIff Config.save_tilecrossed_image
      "--save-tilecrossed-image" (by decide) (by decide)
      (fun cfg0 => by simp [setFlag])
      (setFlag_mono Config.save_tilecrossed_image (Or.inr (Or.inr (Or.inl rfl))))
      (fun tok cfg0 hne => (setFlag_flag_fields tok cfg0).2.2.1 hne)
      (fun opt v cfg0 c2 happ => ?_) (fun cfg0 s => rfl) rfl argv cfg h
    obtain ⟨-, -, -, -, -, -, -, -, -, -, -, -, -, h14, -⟩ := applyValue_fields happ
    exact h14
  · refine parse_args_flagIff Config.save_edges "--save-edges" (by decide)
      (by decide) (fun cfg0 => by simp [setFlag])
      (setFlag_mono Config.save_edges (Or.inr (Or.inr (Or.inr (Or.inl rfl)))))
      (fun tok cfg0 hne => (setFlag_flag_fields tok cfg0).2.2.2.1 hne)
      (fun opt v cfg0 c2 happ => ?_) (fun cfg0 s => rfl) rfl argv cfg h
    obtain ⟨-, -, -, -, -, -, -, -, -, -, -, -, -, -, h15, -⟩ := applyValue_fields happ
    exact h15
  · refine parse_args_flagIff Config.save_mask "--save-mask" (by decide)
      (by decide) (fun cfg0 => by simp [setFlag])
      (setFlag_mono Config.save_mask
        (Or.inr (Or.inr (Or.inr (Or.inr (Or.inl rfl))))))
      (fun tok cfg0 hne => (setFlag_flag_fields tok cfg0).2.2.2.2.1 hne)
      (fun opt v cfg0 c2 happ => ?_) (fun cfg0 s => rfl) rfl argv cfg h
    obtain ⟨-, -, -, -, -, -, -, -, -, -, -, -, -, -, -, h16, -⟩ := applyValue_fields happ
    exact h16
  · refine parse_args_flagIff Config.save_patches "--save-patches" (by decide)
      (by decide) (fun cfg0 => by simp [setFlag])
      (setFlag_mono Config.save_patches
        (Or.inr (Or.inr (Or.inr (Or.inr (Or.inr rfl))))))
      (fun tok cfg0 hne => (setFlag_flag_fields tok cfg0).2.2.2.2.2 hne)
      (fun opt v cfg0 c2 happ => ?_) (fun cfg0 s => rfl) rfl argv cfg h
    obtain ⟨-, -, -, -, -, -, -, -, -, -, -, -, -, -, -, -, h17, -⟩ := applyValue_fields happ
    exact h17

/-- C9 witness: a concrete run of `store_true_flags`. -/
theorem store_true_flags_witness :
    (Config.verbose { initConfig with verbose := true, svs := "slide.svs" } = true) ∧
    ("--test-mode" ∉ (["--verbose", "slide.svs"] : List String)) ∧
    (Config.test_mode { initConfig with verbose := true, svs := "slide.svs" } = false) := by
  have h := store_true_flags.1 ["--verbose", "slide.svs"]
    { initConfig with verbose := true, svs := "slide.svs" } (by decide)
  refine ⟨(h.1).mpr (by decide), by decide, ?_⟩
  have h2 := h.2.1
  by_contra hx
  simp only [Bool.not_eq_false] at hx
  have := h2.mp hx
  revert this
  decide

/-- C10, confirmed: the slide path is a required positional: a run collecting
no positional fails with the missing-argument error (in particular the empty
list and an options-only list), and a single non-option token is bound, as a
string, to the `svs` field. -/
theorem required_positional :
    parse_args [] = .error .missingPositional ∧
    parse_args ["--verbose"] = .error .missingPositional ∧
    (∀ argv c, parseTokens argv none initConfig [] = .ok (c, []) →
      parse_args argv = .error .missingPositional) ∧
    (∀ p, tokenIsOption p = false →
      parse_args [p] = .ok { initConfig with svs := p }) :=
  ⟨by decide, by decide, fun argv c h => parse_args_no_positional argv c h,
    fun p hp => parse_single_positional p hp⟩

/-- C10 witness: a concrete run of `required_positional`. -/
theorem required_positional_witness :
    tokenIsOption "img.svs" = false ∧
    parse_args ["img.svs"] = .ok { initConfig with svs := "img.svs" } :=
  ⟨by decide, required_positional.2.2.2 "img.svs" (by decide)⟩

/-- C4 witness: a concrete run of `choices_exactly_binary4`. -/
theorem choices_exactly_binary4_witness :
    "0110" ∈ combs ∧ isBinary4 "0110" :=
  ⟨(choices_exactly_binary4.1 "0110").mpr (by decide), by decide⟩
